import Mathlib

/-!
# mic_scribe — verification of the capture-to-transcript pipeline

Shallow embedding of the mic_scribe Electron application:
the main-process IPC handlers (settings, token management, the
`transcribe-audio` orchestration with its temp-artifact lifecycle and the
Replicate client cache) and the renderer's recording state machine.

JavaScript dynamic values that flow through `normalizeTranscript` are
modelled by the inductive `JSValue`; JavaScript truthiness, `Array.join`,
and `JSON.stringify` are modelled faithfully on that type.  Machine
effects (file writes, the provider call, `unlink`) are modelled by an
environment record describing each effect's outcome, and the handler
returns the trace of effect events it performed, so that claims about
"no network work" or "removal is the terminal action" become statements
about the trace.
-/

namespace MicScribe

/-- The two UI languages of the app (`type Language = 'de' | 'en'`). -/
inductive Language where
  | de
  | en
deriving DecidableEq, Repr

/-- Dynamic JavaScript values as they reach `normalizeTranscript` and
`JSON.stringify`: null/undefined, strings, integers, booleans, arrays and
plain objects (association lists of fields). -/
inductive JSValue where
  | vNull
  | vStr (s : String)
  | vNum (n : Int)
  | vBool (b : Bool)
  | vArr (elems : List JSValue)
  | vObj (fields : List (String × JSValue))

namespace JSValue

/-- JavaScript truthiness of a `JSValue` (`output ? _ : _`, `if (!token)`):
null/undefined, the empty string, `0` and `false` are falsy; arrays and
objects are always truthy. -/
def truthy : JSValue → Bool
  | vNull => false
  | vStr s => !(s == "")
  | vNum n => !(n == 0)
  | vBool b => b
  | vArr _ => true
  | vObj _ => true

end JSValue

mutual

/-- `String(x)` as used by `Array.prototype.join`: null/undefined become
the empty string, arrays recursively join with `,`, objects print as
`[object Object]`. -/
def jsToJoinString : JSValue → String
  | .vNull => ""
  | .vStr s => s
  | .vNum n => toString n
  | .vBool b => if b then "true" else "false"
  | .vArr xs => String.intercalate "," (jsToJoinList xs)
  | .vObj _ => "[object Object]"

/-- Elementwise `String(x)` over a list of values. -/
def jsToJoinList : List JSValue → List String
  | [] => []
  | v :: vs => jsToJoinString v :: jsToJoinList vs

end

mutual

/-- `JSON.stringify` restricted to the modelled value shapes. -/
def jsonStringify : JSValue → String
  | .vNull => "null"
  | .vStr s => "\"" ++ s ++ "\""
  | .vNum n => toString n
  | .vBool b => if b then "true" else "false"
  | .vArr xs => "[" ++ String.intercalate "," (jsonStringifyList xs) ++ "]"
  | .vObj fs => "\x7b" ++ String.intercalate "," (jsonStringifyFields fs) ++ "\x7d"

/-- `JSON.stringify` of each element of an array. -/
def jsonStringifyList : List JSValue → List String
  | [] => []
  | v :: vs => jsonStringify v :: jsonStringifyList vs

/-- `JSON.stringify` of each `key: value` member of an object. -/
def jsonStringifyFields : List (String × JSValue) → List String
  | [] => []
  | (k, v) :: fs => ("\"" ++ k ++ "\":" ++ jsonStringify v) :: jsonStringifyFields fs

end

/-- `normalizeTranscript` from the main process: arrays are joined with the
empty separator, strings returned as-is, objects with a `text` field that is
an array or a string defer to that field, and everything else is
`output ? JSON.stringify(output) : ''`. -/
def normalizeTranscript (output : JSValue) : String :=
  match output with
  | .vArr xs => String.join (jsToJoinList xs)
  | .vStr s => s
  | .vObj fields =>
      match fields.lookup "text" with
      | some (.vArr xs) => String.join (jsToJoinList xs)
      | some (.vStr s) => s
      | _ => if output.truthy then jsonStringify output else ""
  | _ => if output.truthy then jsonStringify output else ""

/-- JavaScript errors as they are thrown inside the transcription handler:
an `Error` object carrying a message, a bare string, or anything else. -/
inductive JSError where
  | err (msg : String)
  | str (s : String)
  | other
deriving DecidableEq, Repr

/-- `normalizeError` from the main process: the message of an `Error`, a
string unchanged, and a generic German fallback otherwise. -/
def normalizeError : JSError → String
  | .err msg => msg
  | .str s => s
  | .other => "Unbekannter Fehler bei der Transkription."

/-- Truthiness of an optional string (`Boolean(x)`, `x || y`, `if (!x)` in
the main process): absent and empty strings are falsy. -/
def strTruthy : Option String → Bool
  | none => false
  | some s => !(s == "")

/-- The persisted settings store of the main process
(`electron-store` defaults: language `de`, no device, no token). -/
structure Settings where
  language : Language
  preferredMicDeviceId : Option String
  replicateApiToken : Option String
deriving DecidableEq, Repr

/-- The settings shape returned to the renderer: the token value is
replaced by the `hasReplicateToken` flag. -/
structure PublicSettings where
  language : Language
  preferredMicDeviceId : Option String
  hasReplicateToken : Bool
deriving DecidableEq, Repr

/-- `getPublicSettings`: projects the store, exposing only
`Boolean(replicateApiToken)`. -/
def getPublicSettings (s : Settings) : PublicSettings :=
  { language := s.language
    preferredMicDeviceId := s.preferredMicDeviceId
    hasReplicateToken := strTruthy s.replicateApiToken }

/-- A `Partial<Settings>` update: an outer `none` means the field is absent
from the update object; for the nullable fields the inner option
distinguishes `null` from a string value, mirroring the
`typeof u.f === 'string' || u.f === null` guards of `updateSettings`. -/
structure SettingsUpdate where
  language : Option Language
  preferredMicDeviceId : Option (Option String)
  replicateApiToken : Option (Option String)
deriving DecidableEq, Repr

/-- `updateSettings`: copies the current settings and overwrites exactly the
fields present (and well-typed) in the update, then persists the result. -/
def updateSettings (s : Settings) (u : SettingsUpdate) : Settings :=
  { language :=
      match u.language with
      | some l => l
      | none => s.language
    preferredMicDeviceId :=
      match u.preferredMicDeviceId with
      | some d => d
      | none => s.preferredMicDeviceId
    replicateApiToken :=
      match u.replicateApiToken with
      | some t => t
      | none => s.replicateApiToken }

/-- The `settings:set` IPC handler: applies `updateSettings` and answers
with the public projection of the new settings. -/
def settingsSetHandler (s : Settings) (u : SettingsUpdate) :
    Settings × PublicSettings :=
  let next := updateSettings s u
  (next, getPublicSettings next)

/-- The reply of `replicate:set-token` / `replicate:clear-token`: only the
token-present flag. -/
structure TokenReply where
  hasReplicateToken : Bool
deriving DecidableEq, Repr

/-- The `replicate:set-token` IPC handler: trims the incoming token; a
missing or blank value changes nothing and reports the existing token's
presence; otherwise the trimmed value is stored and reported present. -/
def setTokenHandler (s : Settings) (token : Option String) :
    Settings × TokenReply :=
  let value := token.map String.trim
  match value with
  | none => (s, ⟨strTruthy s.replicateApiToken⟩)
  | some v =>
      if v == "" then
        (s, ⟨strTruthy s.replicateApiToken⟩)
      else
        let next := updateSettings s ⟨none, none, some (some v)⟩
        (next, ⟨strTruthy next.replicateApiToken⟩)

/-- The `replicate:clear-token` IPC handler: stores `null` as the token and
reports its (absent) presence. -/
def clearTokenHandler (s : Settings) : Settings × TokenReply :=
  let next := updateSettings s ⟨none, none, some none⟩
  (next, ⟨strTruthy next.replicateApiToken⟩)

/-- A constructed Replicate client: the auth token it was built with, plus a
construction counter so that distinct constructions are distinct handles. -/
structure Client where
  id : Nat
  auth : String
deriving DecidableEq, Repr

/-- The module-level mutable state of the main process: the settings store
and the lazy client cache (`replicateClient`, `replicateToken`), plus the
counter supplying fresh client identities. -/
structure MainState where
  settings : Settings
  replicateClient : Option Client
  replicateToken : Option String
  nextClientId : Nat
deriving DecidableEq, Repr

/-- Token resolution of `ensureReplicateClient`:
`process.env.REPLICATE_API_TOKEN || store.get('replicateApiToken')` —
the environment token wins when truthy, otherwise the stored token. -/
def resolveToken (envToken storedToken : Option String) : Option String :=
  if strTruthy envToken then envToken else storedToken

/-- The German message thrown when no token resolves. -/
def missingTokenMsg : String :=
  "REPLICATE_API_TOKEN ist nicht gesetzt. Bitte als Environment-Variable setzen oder im UI speichern."

/-- `ensureReplicateClient`: resolve the token (environment first, then the
store); fail when none resolves; construct a fresh client when there is no
cached one or the cached one was built for a different token, otherwise
reuse the cache. -/
def ensureReplicateClient (envToken : Option String) (s : MainState) :
    Except JSError (Client × MainState) :=
  let token := resolveToken envToken s.settings.replicateApiToken
  if strTruthy token then
    match token with
    | some t =>
        match s.replicateClient with
        | some c =>
            if s.replicateToken == some t then .ok (c, s)
            else
              let fresh : Client := ⟨s.nextClientId, t⟩
              .ok (fresh, { s with
                replicateClient := some fresh
                replicateToken := some t
                nextClientId := s.nextClientId + 1 })
        | none =>
            let fresh : Client := ⟨s.nextClientId, t⟩
            .ok (fresh, { s with
              replicateClient := some fresh
              replicateToken := some t
              nextClientId := s.nextClientId + 1 })
    | none => .error (.err missingTokenMsg)
  else .error (.err missingTokenMsg)

/-- The payload of a `transcribe-audio` IPC call; `audioBuffer` is `none`
when the field is absent (`undefined`/`null`) and `some bytes` for a real
`ArrayBuffer`, which in JavaScript is truthy even when empty. -/
structure Payload where
  audioBuffer : Option (List Nat)
  mimeType : Option String
  language : Language
deriving Repr

/-- Whether `pre` is a leading charwise segment of `l`. -/
def leadsList : List Char → List Char → Bool
  | [], _ => true
  | _ :: _, [] => false
  | c :: cs, d :: ds => c == d && leadsList cs ds

/-- Whether `needle` occurs contiguously inside `hay`. -/
def containsList (hay needle : List Char) : Bool :=
  if leadsList needle hay then true
  else
    match hay with
    | [] => false
    | _ :: rest => containsList rest needle

/-- `mimeType?.includes(sub)`: substring containment. -/
def jsIncludes (s sub : String) : Bool :=
  containsList s.toList sub.toList

/-- The temp-file extension derived from the declared mime type:
`wav` → `.wav`, `ogg` → `.ogg`, anything else (or no mime type) → `.webm`. -/
def extensionFor (mimeType : Option String) : String :=
  match mimeType with
  | some m =>
      if jsIncludes m "wav" then ".wav"
      else if jsIncludes m "ogg" then ".ogg"
      else ".webm"
  | none => ".webm"

/-- The temp artifact path `micscribe-<uuid><extension>` in the OS temp
directory; the fresh random identifier is supplied by the environment. -/
def tempPathOf (uuid : Nat) (mimeType : Option String) : String :=
  "micscribe-" ++ toString uuid ++ extensionFor mimeType

/-- Effect events performed by the `transcribe-audio` handler, in order. -/
inductive TEvent where
  | writeTemp (path : String)
  | clientReady
  | readTemp (path : String)
  | providerCall
  | unlinkTemp (path : String)
deriving DecidableEq, Repr

/-- Outcomes of the machine effects one `transcribe-audio` call performs:
the ambient environment token, the fresh random identifier for the temp
path, whether the payload write and the re-read succeed, the provider's
response or thrown error (`files.create` + `run` combined), and whether the
final `unlink` succeeds. -/
structure TranscribeEnv where
  envToken : Option String
  uuid : Nat
  writeOk : Bool
  readOk : Bool
  providerResult : Except JSError JSValue
  unlinkOk : Bool

/-- The `transcribe-audio` IPC handler.  An absent `audioBuffer` is rejected
before any file work (`if (!audioBuffer) throw`); otherwise the payload is
written to the temp path, and the `try` block resolves the client, re-reads
the artifact, calls the provider and normalizes its output; any throw inside
the `try` is caught and re-thrown as `new Error(normalizeError(error))`; the
`finally` always initiates `unlink` of the temp path, swallowing its failure
(`.catch(() => undefined)`).  Returns the result, the updated module state
and the trace of effect events. -/
def transcribeAudio (env : TranscribeEnv) (s : MainState) (payload : Payload) :
    Except String String × MainState × List TEvent :=
  match payload.audioBuffer with
  | none => (.error "Keine Audiodaten empfangen.", s, [])
  | some _bytes =>
      let tempPath := tempPathOf env.uuid payload.mimeType
      if !env.writeOk then
        (.error "Temp-Datei konnte nicht geschrieben werden.", s, [])
      else
        let tryOutcome : Except String String × MainState × List TEvent :=
          match ensureReplicateClient env.envToken s with
          | .error e => (.error (normalizeError e), s, [])
          | .ok (_client, s1) =>
              if !env.readOk then
                (.error (normalizeError (.err "Temp-Datei konnte nicht gelesen werden.")),
                  s1, [.clientReady])
              else
                match env.providerResult with
                | .error e =>
                    (.error (normalizeError e), s1,
                      [.clientReady, .readTemp tempPath, .providerCall])
                | .ok output =>
                    (.ok (normalizeTranscript output), s1,
                      [.clientReady, .readTemp tempPath, .providerCall])
        (tryOutcome.1, tryOutcome.2.1,
          .writeTemp tempPath :: tryOutcome.2.2 ++ [.unlinkTemp tempPath])

/-- The renderer's `MediaRecorder` handle: only its negotiated mime-type
option matters to the model (`new MediaRecorder(stream, mimeType ? { mimeType } : undefined)`). -/
structure RecorderRep where
  mimeOpt : Option String
deriving DecidableEq, Repr

/-- The renderer's module-level recording session state: the held stream,
the recorder, the accumulated binary fragments (each a byte list), the two
busy flags and the status line. -/
structure SessionState where
  currentStream : Option Nat
  mediaRecorder : Option RecorderRep
  chunks : List (List Nat)
  isRecording : Bool
  isTranscribing : Bool
  statusLine : String
deriving DecidableEq, Repr

/-- The capture environment a `startRecording` call runs against: whether
`getUserMedia` and `MediaRecorder` exist, which mime types
`MediaRecorder.isTypeSupported` accepts, and whether device acquisition
succeeds (granting the given stream id). -/
structure CaptureEnv where
  hasGetUserMedia : Bool
  hasMediaRecorder : Bool
  supported : String → Bool
  acquire : Except String Nat

/-- The fixed ordered mime-type preference list of `getPreferredMimeType`. -/
def mimeCandidates : List String :=
  ["audio/webm;codecs=opus", "audio/webm"]

/-- `getPreferredMimeType`: the first candidate `isTypeSupported` accepts. -/
def getPreferredMimeType (supported : String → Bool) : Option String :=
  mimeCandidates.find? supported

/-- `stopActiveStream`: stop all tracks of the held stream and drop it. -/
def stopActiveStream (st : SessionState) : SessionState :=
  { st with currentStream := none }

/-- `handleError`: set the error status and clear both busy flags. -/
def handleError (msg : String) (st : SessionState) : SessionState :=
  { st with
    statusLine := "Error: " ++ msg
    isRecording := false
    isTranscribing := false }

/-- `ondataavailable`: append the fragment to `chunks` only when its size is
positive. -/
def ondataavailable (chunks : List (List Nat)) (data : List Nat) :
    List (List Nat) :=
  if data.length > 0 then chunks ++ [data] else chunks

/-- Delivery of a whole sequence of fragments during `Recording`, in
arrival order. -/
def deliverAll (chunks : List (List Nat)) (frags : List (List Nat)) :
    List (List Nat) :=
  frags.foldl ondataavailable chunks

/-- `new Blob(chunks, ...)` followed by `arrayBuffer()`: the payload is the
in-order concatenation of the accumulated fragments. -/
def assembleBlob (chunks : List (List Nat)) : List Nat :=
  chunks.flatten

/-- `startRecording`: a no-op while recording or transcribing; an error
(without device acquisition) when `getUserMedia` or `MediaRecorder` is
missing; otherwise acquire the device, store the stream, negotiate the mime
type, create the recorder, reset `chunks` and raise the recording flag.  A
failed acquisition reports the error and releases any held stream. -/
def startRecording (st : SessionState) (env : CaptureEnv) : SessionState :=
  if st.isRecording || st.isTranscribing then st
  else if !env.hasGetUserMedia then
    handleError "Audioaufnahme wird nicht unterstützt." st
  else if !env.hasMediaRecorder then
    handleError "MediaRecorder wird nicht unterstützt." st
  else
    match env.acquire with
    | .error msg => stopActiveStream (handleError msg st)
    | .ok streamId =>
        let mimeType := getPreferredMimeType env.supported
        { st with
          currentStream := some streamId
          mediaRecorder := some ⟨mimeType⟩
          chunks := []
          isRecording := true
          isTranscribing := st.isTranscribing
          statusLine := "Aufnahme läuft..." }

/-- The synchronous prefix of the `onstop` handler fired by
`mediaRecorder.stop()`: release the stream, drop the recording flag, raise
the transcribing flag. -/
def onstopBegin (st : SessionState) : SessionState :=
  { stopActiveStream st with
    isRecording := false
    isTranscribing := true
    statusLine := "Wird transkribiert..." }

/-- `stopRecording`: ignored unless a recording is active with a live
recorder; otherwise `mediaRecorder.stop()` fires the `onstop` handler. -/
def stopRecording (st : SessionState) : SessionState :=
  if !st.isRecording || st.mediaRecorder.isNone then st
  else onstopBegin st

/-- The response shapes `normalizeTranscript` recognizes before its final
fallback: arrays, strings, and objects whose `text` field is an array or a
string. -/
def recognizedShape : JSValue → Bool
  | .vArr _ => true
  | .vStr _ => true
  | .vObj fields =>
      match fields.lookup "text" with
      | some (.vArr _) => true
      | some (.vStr _) => true
      | _ => false
  | _ => false

/-- Well-formedness of the client cache, holding in every reachable module
state: a cached client was built for the currently fingerprinted token, and
its identity is older than the fresh-identity counter. -/
def clientCacheWF (s : MainState) : Bool :=
  match s.replicateClient with
  | none => true
  | some c => s.replicateToken == some c.auth && decide (c.id < s.nextClientId)

/-- A concrete settings store holding a token, for witnesses. -/
def sampleSettings : Settings :=
  { language := .de, preferredMicDeviceId := none, replicateApiToken := some "aaa" }

/-- A concrete fresh module state with no token anywhere, for witnesses. -/
def sampleMainNoToken : MainState :=
  { settings := { language := .de, preferredMicDeviceId := none, replicateApiToken := none }
    replicateClient := none
    replicateToken := none
    nextClientId := 0 }

/-- A concrete fresh module state whose store holds token `"aaa"`. -/
def sampleMainTokenA : MainState :=
  { settings := sampleSettings
    replicateClient := none
    replicateToken := none
    nextClientId := 0 }

/-- A concrete transcription environment in which every effect succeeds and
the provider answers with the plain string `"hi"`. -/
def sampleOkEnv : TranscribeEnv :=
  { envToken := some "tok", uuid := 0, writeOk := true, readOk := true,
    providerResult := .ok (.vStr "hi"), unlinkOk := true }

/-- A concrete transcription environment with no ambient token. -/
def sampleNoTokenEnv : TranscribeEnv :=
  { envToken := none, uuid := 0, writeOk := true, readOk := true,
    providerResult := .ok (.vStr "hi"), unlinkOk := true }

/-- A concrete present-but-empty audio payload, as produced by a stop with
zero recorded fragments. -/
def emptyPayload : Payload :=
  { audioBuffer := some [], mimeType := some "audio/webm", language := .de }

/-- A concrete non-empty audio payload. -/
def samplePayload : Payload :=
  { audioBuffer := some [1, 2, 3], mimeType := some "audio/webm", language := .de }

/-- The renderer session state at rest. -/
def idleSession : SessionState :=
  { currentStream := none, mediaRecorder := none, chunks := [],
    isRecording := false, isTranscribing := false,
    statusLine := "Bereit zum Aufnehmen" }

/-- A renderer session state in the middle of a recording. -/
def recordingSession : SessionState :=
  { currentStream := some 5, mediaRecorder := some ⟨some "audio/webm"⟩,
    chunks := [[1], [2]], isRecording := true, isTranscribing := false,
    statusLine := "Aufnahme läuft..." }

/-- The settings store after rotating the token to `"bbb"`. -/
def c3SettingsB : Settings :=
  { language := .de, preferredMicDeviceId := none, replicateApiToken := some "bbb" }

/-- The module state after the first concrete resolution under `"aaa"`. -/
def c3State1 : MainState :=
  { settings := sampleSettings
    replicateClient := some ⟨0, "aaa"⟩
    replicateToken := some "aaa"
    nextClientId := 1 }

/-- The module state after the concrete post-rotation resolution. -/
def c3State2 : MainState :=
  { settings := c3SettingsB
    replicateClient := some ⟨1, "bbb"⟩
    replicateToken := some "bbb"
    nextClientId := 2 }

/-- A fully capable capture environment, for witnesses. -/
def sampleCaptureEnv : CaptureEnv :=
  { hasGetUserMedia := true, hasMediaRecorder := true,
    supported := fun _ => true, acquire := .ok 7 }

/-- A capture environment in which no candidate mime type is supported but
everything else works, granting stream `7` on acquisition. -/
def noCodecEnv : CaptureEnv :=
  { hasGetUserMedia := true, hasMediaRecorder := true,
    supported := fun _ => false, acquire := .ok 7 }

/-! ## Shared lemmas -/

/-- Folding `ondataavailable` over delivered fragments preserves the
concatenated content: dropped empty fragments contribute nothing. -/
theorem deliverAll_flatten (frags : List (List Nat)) (acc : List (List Nat)) :
    (deliverAll acc frags).flatten = acc.flatten ++ frags.flatten := by
  induction frags generalizing acc with
  | nil => simp [deliverAll]
  | cons d rest ih =>
      have step : deliverAll acc (d :: rest) = deliverAll (ondataavailable acc d) rest := rfl
      rw [step, ih]
      by_cases h : d.length > 0
      · simp [ondataavailable, h]
      · have hd : d = [] := List.eq_nil_of_length_eq_zero (Nat.eq_zero_of_not_pos h)
        simp [ondataavailable, h, hd]

/-- `String(x)` mapped over an array of plain strings recovers the strings. -/
theorem jsToJoinList_map_vStr (xs : List String) :
    jsToJoinList (xs.map .vStr) = xs := by
  induction xs with
  | nil => rfl
  | cons s rest ih => simp [jsToJoinList, jsToJoinString, ih]

/-- When the resolved token matches the cache fingerprint, resolution
returns the cached client and leaves the state untouched. -/
theorem ensureReplicateClient_cached (envToken : Option String) (s : MainState)
    (t : String) (c : Client)
    (hres : resolveToken envToken s.settings.replicateApiToken = some t)
    (ht : t ≠ "") (hcl : s.replicateClient = some c)
    (hct : s.replicateToken = some t) :
    ensureReplicateClient envToken s = .ok (c, s) := by
  simp [ensureReplicateClient, hres, strTruthy, ht, hcl, hct]

/-- When there is no cached client, or the cache fingerprint differs from
the resolved token, resolution constructs a fresh client for the resolved
token and advances the counter. -/
theorem ensureReplicateClient_fresh (envToken : Option String) (s : MainState)
    (t : String)
    (hres : resolveToken envToken s.settings.replicateApiToken = some t)
    (ht : t ≠ "")
    (hmiss : s.replicateClient = none ∨ s.replicateToken ≠ some t) :
    ensureReplicateClient envToken s =
      .ok (⟨s.nextClientId, t⟩,
        { s with
          replicateClient := some ⟨s.nextClientId, t⟩
          replicateToken := some t
          nextClientId := s.nextClientId + 1 }) := by
  rcases hmiss with hmiss | hmiss
  · simp [ensureReplicateClient, hres, strTruthy, ht, hmiss]
  · cases hcl : s.replicateClient with
    | none => simp [ensureReplicateClient, hres, strTruthy, ht, hcl]
    | some c => simp [ensureReplicateClient, hres, strTruthy, ht, hcl, hmiss]

/-- Concrete evaluation of `String.trim` on the whitespace-free token used by
the cache-rotation witness. -/
theorem trim_bbb : "bbb".trim = "bbb" := by
  rw [String.trim]
  rw [Substring.trim]
  simp only [String.toSubstring, Substring.trimLeft, Substring.trimRight]
  rw [Substring.takeWhileAux]
  rw [Substring.takeRightWhileAux]
  decide

/-! ## Claim theorems -/

/-- C6: for every sequence of binary fragments delivered during Recording,
the payload assembled at stop equals the concatenation of those fragments
in arrival order. -/
theorem c6_payload_is_concat_in_order (frags : List (List Nat)) :
    assembleBlob (deliverAll [] frags) = frags.flatten := by
  simp [assembleBlob, deliverAll_flatten]

/-- C8: `start()` is a no-op while recording or transcribing, and `stop()`
is a no-op with no active recorder or while not recording; in each case the
whole session state (flags, stream, chunks) is returned unchanged. -/
theorem c8_start_stop_reentrancy :
    (∀ (st : SessionState) (env : CaptureEnv),
        st.isRecording = true ∨ st.isTranscribing = true →
        startRecording st env = st) ∧
    (∀ st : SessionState,
        st.isRecording = false ∨ st.mediaRecorder = none →
        stopRecording st = st) := by
  constructor
  · intro st env h
    rcases h with h | h <;> simp [startRecording, h]
  · intro st h
    rcases h with h | h <;> simp [stopRecording, h]

/-- C8 witness: concrete no-op application of both halves. -/
theorem c8_start_stop_reentrancy_witness :
    startRecording recordingSession sampleCaptureEnv = recordingSession ∧
    stopRecording idleSession = idleSession :=
  ⟨c8_start_stop_reentrancy.1 recordingSession sampleCaptureEnv (Or.inl rfl),
   c8_start_stop_reentrancy.2 idleSession (Or.inl rfl)⟩

/-- C10: set-token with an absent, empty, or whitespace-only value leaves
the store unchanged and reports the presence of the existing token;
set-token never turns a stored token absent; clear-token stores the absent
token. -/
theorem c10_set_token_blank_is_frame :
    (∀ (s : Settings) (tok : Option String),
        (tok = none ∨ ∃ w, tok = some w ∧ w.trim = "") →
        setTokenHandler s tok = (s, ⟨strTruthy s.replicateApiToken⟩)) ∧
    (∀ (s : Settings) (tok : Option String),
        (setTokenHandler s tok).1.replicateApiToken = none →
        s.replicateApiToken = none) ∧
    (∀ s : Settings, (clearTokenHandler s).1.replicateApiToken = none) := by
  refine ⟨?_, ?_, fun s => rfl⟩
  · intro s tok h
    rcases h with h | ⟨w, hw, htrim⟩
    · simp [setTokenHandler, h]
    · simp [setTokenHandler, hw, htrim]
  · intro s tok h
    match tok with
    | none => exact h
    | some w =>
        by_cases hw : w.trim == ""
        · simpa [setTokenHandler, hw] using h
        · simp [setTokenHandler, hw, updateSettings] at h

/-- C10 witness: a set-token call with an absent value against a store
holding `"aaa"` is a frame no-op reporting the token present, and a
concrete clear-token stores the absent token. -/
theorem c10_set_token_blank_is_frame_witness :
    setTokenHandler sampleSettings none =
      (sampleSettings, ⟨strTruthy sampleSettings.replicateApiToken⟩) ∧
    (clearTokenHandler sampleSettings).1.replicateApiToken = none :=
  ⟨c10_set_token_blank_is_frame.1 sampleSettings none (Or.inl rfl),
   c10_set_token_blank_is_frame.2.2 sampleSettings⟩

/-- C9: the settings surface never echoes the token value: the public
projection, the settings:set reply, the set-token reply and the clear-token
reply are identical for any two stores that differ only in which non-empty
token they hold. -/
theorem c9_token_value_not_observable (s : Settings) (t1 t2 : String)
    (h1 : t1 ≠ "") (h2 : t2 ≠ "") :
    getPublicSettings { s with replicateApiToken := some t1 } =
      getPublicSettings { s with replicateApiToken := some t2 } ∧
    (∀ u : SettingsUpdate,
        (settingsSetHandler { s with replicateApiToken := some t1 } u).2 =
        (settingsSetHandler { s with replicateApiToken := some t2 } u).2) ∧
    (∀ tok : Option String,
        (setTokenHandler { s with replicateApiToken := some t1 } tok).2 =
        (setTokenHandler { s with replicateApiToken := some t2 } tok).2) ∧
    (clearTokenHandler { s with replicateApiToken := some t1 }).2 =
      (clearTokenHandler { s with replicateApiToken := some t2 }).2 := by
  have e1 : strTruthy (some t1) = true := by simp [strTruthy, h1]
  have e2 : strTruthy (some t2) = true := by simp [strTruthy, h2]
  refine ⟨?_, ?_, ?_, ?_⟩
  · simp [getPublicSettings, e1, e2]
  · intro u
    match hu : u.replicateApiToken with
    | some t => simp [settingsSetHandler, updateSettings, getPublicSettings, hu]
    | none => simp [settingsSetHandler, updateSettings, getPublicSettings, hu, e1, e2]
  · intro tok
    match tok with
    | none => simp [setTokenHandler, e1, e2]
    | some w =>
        by_cases hw : w.trim == ""
        · simp [setTokenHandler, hw, e1, e2]
        · simp [setTokenHandler, hw, updateSettings]
  · simp [clearTokenHandler, updateSettings]

/-- C9 witness: the public projections of two stores holding distinct
non-empty tokens coincide. -/
theorem c9_token_value_not_observable_witness :
    getPublicSettings { sampleSettings with replicateApiToken := some "aaa" } =
      getPublicSettings { sampleSettings with replicateApiToken := some "bbb" } :=
  (c9_token_value_not_observable sampleSettings "aaa" "bbb"
      (by decide) (by decide)).1

/-- C5 counterexample: the number `0` is a present (non-absent) input, yet
`normalizeTranscript` returns the empty string for it instead of its
readable serialization `"0"` — the fallback tests JavaScript truthiness,
not presence. -/
theorem c5_counterexample_falsy_number :
    normalizeTranscript (JSValue.vNum 0) = "" ∧
    jsonStringify (JSValue.vNum 0) = "0" ∧
    normalizeTranscript (JSValue.vNum 0) ≠ jsonStringify (JSValue.vNum 0) := by
  exact ⟨rfl, rfl, by decide⟩

/-- C5 (amended): `normalize` is total and applies its rules in order — an
array of text fragments is concatenated in order; a plain string is
returned unchanged; an object whose `text` field is such an array or a
string defers to that field; every other input that is truthy is serialized
to a readable string, while an absent input — or a present but falsy one
such as `0` or `false` — yields the empty string. -/
theorem c5_normalize_rules_in_order :
    (∀ xs : List String,
        normalizeTranscript (.vArr (xs.map .vStr)) = String.join xs) ∧
    (∀ s : String, normalizeTranscript (.vStr s) = s) ∧
    (∀ (fields : List (String × JSValue)) (xs : List String),
        fields.lookup "text" = some (.vArr (xs.map .vStr)) →
        normalizeTranscript (.vObj fields) = String.join xs) ∧
    (∀ (fields : List (String × JSValue)) (s : String),
        fields.lookup "text" = some (.vStr s) →
        normalizeTranscript (.vObj fields) = s) ∧
    (∀ v : JSValue, recognizedShape v = false →
        normalizeTranscript v = if v.truthy then jsonStringify v else "") ∧
    normalizeTranscript .vNull = "" := by
  refine ⟨?_, fun s => rfl, ?_, ?_, ?_, rfl⟩
  · intro xs
    simp [normalizeTranscript, jsToJoinList_map_vStr]
  · intro fields xs h
    simp [normalizeTranscript, h, jsToJoinList_map_vStr]
  · intro fields s h
    simp [normalizeTranscript, h]
  · intro v hv
    match v with
    | .vNull => rfl
    | .vNum n => rfl
    | .vBool b => rfl
    | .vStr s => simp [recognizedShape] at hv
    | .vArr xs => simp [recognizedShape] at hv
    | .vObj fields =>
        simp only [normalizeTranscript]
        simp only [recognizedShape] at hv
        match h : fields.lookup "text" with
        | none => simp [h]
        | some (.vArr xs) => rw [h] at hv; simp at hv
        | some (.vStr s) => rw [h] at hv; simp at hv
        | some .vNull => simp [h]
        | some (.vNum n) => simp [h]
        | some (.vBool b) => simp [h]
        | some (.vObj fs) => simp [h]

/-- C5 witness: concrete applications of the amended rules — scenario 2's
`{text: ["Hel", "lo"]}` yields `"Hello"`, and a truthy unrecognized object
is serialized readably. -/
theorem c5_normalize_rules_in_order_witness :
    normalizeTranscript (.vObj [("text", .vArr [.vStr "Hel", .vStr "lo"])]) = "Hello" ∧
    normalizeTranscript (.vObj [("a", .vNum 1)]) =
      (if (JSValue.vObj [("a", .vNum 1)]).truthy
        then jsonStringify (.vObj [("a", .vNum 1)]) else "") := by
  constructor
  · have h := c5_normalize_rules_in_order.2.2.1
      [("text", .vArr [.vStr "Hel", .vStr "lo"])] ["Hel", "lo"] (by rfl)
    simpa using h
  · exact c5_normalize_rules_in_order.2.2.2.2.1 (.vObj [("a", .vNum 1)]) (by rfl)

/-- C4: token resolution order — a non-empty environment token takes
precedence over any stored token; when neither the environment nor the
store holds a truthy token, `ensureReplicateClient` fails with the
missing-credential message without constructing a client, and a
`transcribe-audio` call never reaches the provider. -/
theorem c4_token_resolution_order :
    (∀ (e : String) (stored : Option String), e ≠ "" →
        resolveToken (some e) stored = some e) ∧
    (∀ (envToken : Option String) (s : MainState),
        strTruthy envToken = false →
        strTruthy s.settings.replicateApiToken = false →
        ensureReplicateClient envToken s = .error (.err missingTokenMsg)) ∧
    (∀ (env : TranscribeEnv) (s : MainState) (p : Payload),
        strTruthy env.envToken = false →
        strTruthy s.settings.replicateApiToken = false →
        TEvent.providerCall ∉ (transcribeAudio env s p).2.2) := by
  have key : ∀ (envToken : Option String) (s : MainState),
      strTruthy envToken = false →
      strTruthy s.settings.replicateApiToken = false →
      ensureReplicateClient envToken s = .error (.err missingTokenMsg) := by
    intro envToken s h1 h2
    simp [ensureReplicateClient, resolveToken, h1, h2]
  refine ⟨?_, key, ?_⟩
  · intro e stored h
    simp [resolveToken, strTruthy, h]
  · intro env s p h1 h2
    match hp : p.audioBuffer with
    | none => simp [transcribeAudio, hp]
    | some bytes =>
        by_cases hw : env.writeOk
        · simp [transcribeAudio, hp, hw, key env.envToken s h1 h2, normalizeError]
        · simp [transcribeAudio, hp, hw]

/-- C4 witness: a concrete environment token wins over a stored one, and a
concrete tokenless state yields the missing-credential failure with no
provider call. -/
theorem c4_token_resolution_order_witness :
    resolveToken (some "envtok") (some "storetok") = some "envtok" ∧
    ensureReplicateClient none sampleMainNoToken = .error (.err missingTokenMsg) ∧
    TEvent.providerCall ∉
      (transcribeAudio sampleNoTokenEnv sampleMainNoToken samplePayload).2.2 :=
  ⟨c4_token_resolution_order.1 "envtok" (some "storetok") (by decide),
   c4_token_resolution_order.2.1 none sampleMainNoToken rfl rfl,
   c4_token_resolution_order.2.2 sampleNoTokenEnv sampleMainNoToken samplePayload
      rfl rfl⟩

/-- C3: the client cache is keyed by the resolved token value.  In any
well-formed module state whose store resolves to token `A`, resolving
yields a client built for `A`; resolving again with the token unchanged
reuses exactly that client and leaves the state untouched; and after
`replicate:set-token` rotates the stored token to `B ≠ A`, the next
resolution constructs a client for `B` that is distinct from the client
built for `A`. -/
theorem c3_cache_keyed_by_resolved_token (envToken : Option String)
    (s s1 s2 : MainState) (A B : String) (c1 c2 : Client)
    (henv : strTruthy envToken = false)
    (hA : A ≠ "") (hB : B ≠ "") (hAB : A ≠ B) (hBt : B.trim = B)
    (hs : s.settings.replicateApiToken = some A)
    (hwf : clientCacheWF s = true)
    (h1 : ensureReplicateClient envToken s = .ok (c1, s1))
    (h2 : ensureReplicateClient envToken
        { s1 with settings := (setTokenHandler s1.settings (some B)).1 } =
        .ok (c2, s2)) :
    c1.auth = A ∧
    ensureReplicateClient envToken s1 = .ok (c1, s1) ∧
    c2.auth = B ∧
    c1 ≠ c2 := by
  have hBne : (B == "") = false := by simp [hB]
  have hres : resolveToken envToken s.settings.replicateApiToken = some A := by
    simp [resolveToken, henv, hs]
  have main : c1.auth = A ∧ s1.replicateClient = some c1 ∧
      s1.replicateToken = some A ∧ s1.settings.replicateApiToken = some A ∧
      c1.id < s1.nextClientId := by
    cases hcl : s.replicateClient with
    | none =>
        rw [ensureReplicateClient_fresh envToken s A hres hA (Or.inl hcl)] at h1
        simp only [Except.ok.injEq, Prod.mk.injEq] at h1
        obtain ⟨rfl, rfl⟩ := h1
        exact ⟨rfl, rfl, rfl, hs, Nat.lt_succ_self _⟩
    | some c =>
        simp only [clientCacheWF, hcl, Bool.and_eq_true, beq_iff_eq,
          decide_eq_true_eq] at hwf
        obtain ⟨hwauth, hwid⟩ := hwf
        by_cases hct : s.replicateToken = some A
        · rw [ensureReplicateClient_cached envToken s A c hres hA hcl hct] at h1
          simp only [Except.ok.injEq, Prod.mk.injEq] at h1
          have hcauth : c.auth = A := by
            have := hwauth.symm.trans hct
            injection this
          obtain ⟨rfl, rfl⟩ := h1
          exact ⟨hcauth, hcl, hct, hs, hwid⟩
        · rw [ensureReplicateClient_fresh envToken s A hres hA (Or.inr hct)] at h1
          simp only [Except.ok.injEq, Prod.mk.injEq] at h1
          obtain ⟨rfl, rfl⟩ := h1
          exact ⟨rfl, rfl, rfl, hs, Nat.lt_succ_self _⟩
  obtain ⟨hauth, hcl1, htok1, hsett1, hid1⟩ := main
  have reuse : ensureReplicateClient envToken s1 = .ok (c1, s1) :=
    ensureReplicateClient_cached envToken s1 A c1
      (by simp [resolveToken, henv, hsett1]) hA hcl1 htok1
  have rotated : c2 = ⟨s1.nextClientId, B⟩ := by
    have hset : (setTokenHandler s1.settings (some B)).1.replicateApiToken = some B := by
      simp [setTokenHandler, hBt, hBne, updateSettings]
    rw [ensureReplicateClient_fresh envToken
        { s1 with settings := (setTokenHandler s1.settings (some B)).1 } B
        (by simp [resolveToken, henv, hset]) hB
        (Or.inr (by simp only [htok1]; simp [hAB]))] at h2
    simp only [Except.ok.injEq, Prod.mk.injEq] at h2
    exact h2.1.symm
  refine ⟨hauth, reuse, ?_, ?_⟩
  · rw [rotated]
  · intro hcc
    have hid : c1.id = s1.nextClientId := by rw [hcc, rotated]
    exact absurd (hid ▸ hid1) (lt_irrefl _)

/-- C3 witness: a concrete run — resolving under stored token `"aaa"` builds
client `⟨0, "aaa"⟩`, resolving again reuses it unchanged, and after rotating
the stored token to `"bbb"` the next resolution builds the distinct client
`⟨1, "bbb"⟩`. -/
theorem c3_cache_keyed_by_resolved_token_witness :
    (⟨0, "aaa"⟩ : Client).auth = "aaa" ∧
    ensureReplicateClient none c3State1 = .ok (⟨0, "aaa"⟩, c3State1) ∧
    (⟨1, "bbb"⟩ : Client).auth = "bbb" ∧
    (⟨0, "aaa"⟩ : Client) ≠ ⟨1, "bbb"⟩ := by
  have h1 : ensureReplicateClient none sampleMainTokenA =
      .ok (⟨0, "aaa"⟩, c3State1) := by rfl
  have h2 : ensureReplicateClient none
      { c3State1 with settings := (setTokenHandler c3State1.settings (some "bbb")).1 } =
      .ok (⟨1, "bbb"⟩, c3State2) := by
    have hst : (setTokenHandler c3State1.settings (some "bbb")).1 = c3SettingsB := by
      simp [setTokenHandler, c3State1, sampleSettings, trim_bbb, updateSettings,
        c3SettingsB]
    rw [hst]
    rfl
  exact c3_cache_keyed_by_resolved_token none sampleMainTokenA c3State1 c3State2
    "aaa" "bbb" ⟨0, "aaa"⟩ ⟨1, "bbb"⟩ rfl (by decide) (by decide) (by decide)
    trim_bbb rfl (by decide) h1 h2

/-- C2 counterexample: a present but zero-byte audio payload — exactly what
a stop with zero recorded fragments produces — is NOT rejected: the guard
`if (!audioBuffer)` sees a truthy (empty) ArrayBuffer, so the temp artifact
is written, the provider is called, and the call succeeds. -/
theorem c2_counterexample_empty_buffer_accepted :
    (transcribeAudio sampleOkEnv sampleMainNoToken emptyPayload).1 = .ok "hi" ∧
    TEvent.writeTemp "micscribe-0.webm" ∈
      (transcribeAudio sampleOkEnv sampleMainNoToken emptyPayload).2.2 ∧
    TEvent.providerCall ∈
      (transcribeAudio sampleOkEnv sampleMainNoToken emptyPayload).2.2 := by
  have htrace : (transcribeAudio sampleOkEnv sampleMainNoToken emptyPayload).2.2 =
      [.writeTemp "micscribe-0.webm", .clientReady, .readTemp "micscribe-0.webm",
        .providerCall, .unlinkTemp "micscribe-0.webm"] := rfl
  refine ⟨rfl, ?_, ?_⟩ <;> simp [htrace]

/-- C2 (amended): only an absent (`undefined`/`null`) audio payload fails
immediately with the EmptyAudioError-equivalent message, before any file
write or provider work; a present-but-empty payload passes the guard. -/
theorem c2_absent_payload_rejected_first (env : TranscribeEnv) (s : MainState)
    (p : Payload) (h : p.audioBuffer = none) :
    transcribeAudio env s p = (.error "Keine Audiodaten empfangen.", s, []) := by
  simp [transcribeAudio, h]

/-- C2 witness: a concrete absent-payload call rejects with the German
empty-audio message, touching neither the filesystem nor the provider. -/
theorem c2_absent_payload_rejected_first_witness :
    transcribeAudio sampleOkEnv sampleMainNoToken
      { audioBuffer := none, mimeType := none, language := .de } =
      (.error "Keine Audiodaten empfangen.", sampleMainNoToken, []) :=
  c2_absent_payload_rejected_first sampleOkEnv sampleMainNoToken
    { audioBuffer := none, mimeType := none, language := .de } rfl

/-- C1: whenever the payload is present and its write succeeds, the
`finally` block makes removal of the temp artifact the terminal trace
action on every exit path (client-construction error, read error, provider
error, and success alike), no removal happens earlier, and the outcome of
the removal itself never changes the operation's result. -/
theorem c1_unlink_terminal_on_every_path (env : TranscribeEnv) (s : MainState)
    (p : Payload) (bytes : List Nat)
    (hp : p.audioBuffer = some bytes) (hw : env.writeOk = true) :
    ((transcribeAudio env s p).2.2).getLast? =
      some (.unlinkTemp (tempPathOf env.uuid p.mimeType)) ∧
    (∀ path, TEvent.unlinkTemp path ∉ ((transcribeAudio env s p).2.2).dropLast) ∧
    (∀ b : Bool,
        transcribeAudio { env with unlinkOk := b } s p = transcribeAudio env s p) := by
  have hshape : ∃ mid : List TEvent,
      (transcribeAudio env s p).2.2 =
        .writeTemp (tempPathOf env.uuid p.mimeType) :: mid ++
          [.unlinkTemp (tempPathOf env.uuid p.mimeType)] ∧
      (∀ path, TEvent.unlinkTemp path ∉ mid) := by
    rcases henc : ensureReplicateClient env.envToken s with e | cs1
    · exact ⟨[], by simp [transcribeAudio, hp, hw, henc], by simp⟩
    · by_cases hr : env.readOk
      · rcases hpr : env.providerResult with e | out
        · refine ⟨[.clientReady, .readTemp (tempPathOf env.uuid p.mimeType),
            .providerCall], by simp [transcribeAudio, hp, hw, henc, hr, hpr], ?_⟩
          intro path
          simp
        · refine ⟨[.clientReady, .readTemp (tempPathOf env.uuid p.mimeType),
            .providerCall], by simp [transcribeAudio, hp, hw, henc, hr, hpr], ?_⟩
          intro path
          simp
      · refine ⟨[.clientReady], by simp [transcribeAudio, hp, hw, henc, hr], ?_⟩
        intro path
        simp
  obtain ⟨mid, htr, hmid⟩ := hshape
  refine ⟨?_, ?_, fun b => rfl⟩
  · rw [htr, List.getLast?_concat]
  · intro path
    rw [htr, List.dropLast_concat]
    intro hmem
    rcases List.mem_cons.mp hmem with h | h
    · exact TEvent.noConfusion h
    · exact hmid path h

/-- C1 witness: in a concrete successful run the last trace event is the
removal of the artifact that was written. -/
theorem c1_unlink_terminal_on_every_path_witness :
    ((transcribeAudio sampleOkEnv sampleMainNoToken samplePayload).2.2).getLast? =
      some (.unlinkTemp (tempPathOf sampleOkEnv.uuid samplePayload.mimeType)) :=
  (c1_unlink_terminal_on_every_path sampleOkEnv sampleMainNoToken samplePayload
    [1, 2, 3] rfl rfl).1

/-- C7 counterexample: with every codec candidate unsupported but capture
otherwise available, `startRecording` does not fail fast: it acquires the
device (stream 7 is held) and starts recording with a recorder that has no
explicit mime type. -/
theorem c7_counterexample_no_codec_still_acquires :
    (startRecording idleSession noCodecEnv).currentStream = some 7 ∧
    (startRecording idleSession noCodecEnv).isRecording = true ∧
    (startRecording idleSession noCodecEnv).mediaRecorder = some ⟨none⟩ :=
  ⟨rfl, rfl, rfl⟩

/-- C7 (amended): mime negotiation picks the first supported candidate of
the fixed list (opus-in-webm, then plain webm) and yields nothing when
neither is supported; in that case `startRecording` does not fail — it
still acquires the device and creates the recorder with no explicit mime
type; the only fail-fast paths that hold no device are the absence of
`getUserMedia` or of `MediaRecorder`. -/
theorem c7_mime_preference_and_no_failfast :
    (∀ supported : String → Bool, supported "audio/webm;codecs=opus" = true →
        getPreferredMimeType supported = some "audio/webm;codecs=opus") ∧
    (∀ supported : String → Bool, supported "audio/webm;codecs=opus" = false →
        supported "audio/webm" = true →
        getPreferredMimeType supported = some "audio/webm") ∧
    (∀ supported : String → Bool, supported "audio/webm;codecs=opus" = false →
        supported "audio/webm" = false →
        getPreferredMimeType supported = none) ∧
    (∀ (st : SessionState) (env : CaptureEnv) (sid : Nat),
        st.isRecording = false → st.isTranscribing = false →
        env.hasGetUserMedia = true → env.hasMediaRecorder = true →
        env.acquire = .ok sid →
        getPreferredMimeType env.supported = none →
        startRecording st env =
          { st with
            currentStream := some sid
            mediaRecorder := some ⟨none⟩
            chunks := []
            isRecording := true
            statusLine := "Aufnahme läuft..." }) ∧
    (∀ (st : SessionState) (env : CaptureEnv),
        st.isRecording = false → st.isTranscribing = false →
        env.hasGetUserMedia = true → env.hasMediaRecorder = false →
        (startRecording st env).currentStream = st.currentStream ∧
        (startRecording st env).isRecording = false) := by
  refine ⟨?_, ?_, ?_, ?_, ?_⟩
  · intro supported h
    simp [getPreferredMimeType, mimeCandidates, List.find?, h]
  · intro supported h1 h2
    simp [getPreferredMimeType, mimeCandidates, List.find?, h1, h2]
  · intro supported h1 h2
    simp [getPreferredMimeType, mimeCandidates, List.find?, h1, h2]
  · intro st env sid hrec htr hgum hmr hacq hmime
    simp [startRecording, hrec, htr, hgum, hmr, hacq, hmime]
  · intro st env hrec htr hgum hmr
    simp [startRecording, hrec, htr, hgum, hmr, handleError]

/-- C7 witness: with no supported codec, the negotiation yields nothing and
a concrete start from idle acquires stream 7 with a default-mime recorder. -/
theorem c7_mime_preference_and_no_failfast_witness :
    getPreferredMimeType noCodecEnv.supported = none ∧
    startRecording idleSession noCodecEnv =
      { idleSession with
        currentStream := some 7
        mediaRecorder := some ⟨none⟩
        chunks := []
        isRecording := true
        statusLine := "Aufnahme läuft..." } :=
  ⟨c7_mime_preference_and_no_failfast.2.2.1 noCodecEnv.supported rfl rfl,
   c7_mime_preference_and_no_failfast.2.2.2.1 idleSession noCodecEnv 7
      rfl rfl rfl rfl rfl rfl⟩

end MicScribe
